import Mathlib

/-!
Shallow embedding of `src/fx_email.py`, a daily FX report generator.

Conventions of the embedding:
* Python floats are modelled as exact rationals (`ℚ`); the claims under
  scrutiny concern formulas, signs, error propagation and renderer
  agreement, none of which depend on binary rounding of intermediate
  arithmetic.
* Python dictionaries are association lists; a subscript lookup `d[k]`
  is `pyGet d k`, which raises `KeyError` (modelled as
  `Except.error (PyError.keyError k)`) exactly when the key is absent.
* Python exception propagation is the `Except PyError` monad, written
  with explicit `match`es so each statement of the source maps to one
  step of the Lean definition.
* The error classes named by the specification but absent from the code
  (`RateFetchError`, `InvalidRateError`, `IncompleteRateDataError`) are
  included as constructors of `PyError` so that claims about them are
  statable; the embedded code never produces them, mirroring the source.
-/

set_option autoImplicit false

namespace FxEmail

/-- Errors a run of the program can surface.  `keyError`,
`zeroDivisionError`, `valueError` (from `int()` on a non-numeric
string), `httpError` (requests' `HTTPError` from `raise_for_status`)
and `smtpError` correspond to exceptions the Python code can actually
raise; `rateFetchError`, `invalidRateError` and
`incompleteRateDataError` are the specification's named error classes,
present here only so that claims mentioning them can be stated. -/
inductive PyError where
  | keyError (k : String)
  | zeroDivisionError
  | valueError
  | httpError
  | smtpError
  | rateFetchError
  | invalidRateError
  | incompleteRateDataError
deriving DecidableEq

/-- A rate table: currency code ↦ rate (`data["rates"]` in the source). -/
abbrev Table := List (String × ℚ)

/-- The five labelled rate tables (`rates` dict built in `main`). -/
abbrev RateDict := List (String × Table)

/-- Python dict subscript `d[k]`: first binding wins, `KeyError` when absent. -/
def pyGet {α : Type} : List (String × α) → String → Except PyError α
  | [], k => .error (.keyError k)
  | (k', v) :: rest, k => if k' = k then .ok v else pyGet rest k

/-- `CURRENCIES = ["KES", "UGX", "NGN", "TZS"]` (source line 12). -/
def CURRENCIES : List String := ["KES", "UGX", "NGN", "TZS"]

/-- `BASE = "USD"` (source line 13). -/
def BASE : String := "USD"

/-- The five horizon labels, in the order `main` builds its `rates` dict. -/
def LABELS : List String := ["D-1", "D-2", "D-7", "D-30", "D-365"]

/-- `pct_change(new, old)` (source lines 27–28): the pure value
`(new / old - 1.0) * 100.0`. -/
def pct_change (new old : ℚ) : ℚ := (new / old - 1.0) * 100.0

/-- `pct_change` as actually executed by Python: float division by zero
raises `ZeroDivisionError`; otherwise the formula's value is returned. -/
def pct_changeE (new old : ℚ) : Except PyError ℚ :=
  if old = 0 then .error .zeroDivisionError else .ok (pct_change new old)

/-- The percentage-change operation exactly as the specification words it:
`percentChange(new, old) -> float`, defined as `(new / old − 1.0) × 100.0`. -/
def percentChangeSpec (new old : ℚ) : ℚ := (new / old - 1.0) * 100.0

/-- C2: for every pair of inputs `(new, old)` with `old` nonzero,
`pct_change(new, old)` succeeds and equals `(new / old - 1.0) * 100.0`,
the formula the specification gives for `percentChange`. -/
theorem pct_change_matches_spec_formula (new old : ℚ) (h : old ≠ 0) :
    pct_changeE new old = .ok (percentChangeSpec new old) := by
  simp [pct_changeE, h, pct_change, percentChangeSpec]

/-- Witness for C2 at the spec's end-to-end example rates
(KES spot 129.50 against D-2 rate 128.90). -/
theorem pct_change_matches_spec_formula_witness :
    (128.90 : ℚ) ≠ 0 ∧
      pct_changeE 129.50 128.90 = .ok (percentChangeSpec 129.50 128.90) :=
  ⟨by norm_num, pct_change_matches_spec_formula 129.50 128.90 (by norm_num)⟩

/-- C4 counterexample: at `new = 110`, `old = -100` the computation does
not fail with `InvalidRateError`; it silently returns the formula value
`-210`.  At `old = 0` it raises `ZeroDivisionError`, again not
`InvalidRateError`. -/
theorem pct_change_negative_old_not_invalidRateError :
    pct_changeE 110 (-100) = .ok (-210) ∧
      pct_changeE 110 (-100) ≠ .error .invalidRateError ∧
      pct_changeE 5 0 = .error .zeroDivisionError ∧
      pct_changeE 5 0 ≠ .error .invalidRateError := by
  have : pct_change 110 (-100) = -210 := by norm_num [pct_change]
  refine ⟨by simp [pct_changeE, this], by simp [pct_changeE], by simp [pct_changeE], ?_⟩
  simp [pct_changeE]

/-- C4 amended: a zero `old` fails with `ZeroDivisionError` (there is no
`InvalidRateError` in the code); a negative `old` is accepted silently
and yields the formula's finite value; no input ever produces
`InvalidRateError`. -/
theorem pct_change_nonpositive_old_behavior (new old : ℚ) :
    (old = 0 → pct_changeE new old = .error .zeroDivisionError) ∧
      (old < 0 → pct_changeE new old = .ok (pct_change new old)) ∧
      pct_changeE new old ≠ .error .invalidRateError := by
  refine ⟨fun h => by simp [pct_changeE, h], fun h => ?_, ?_⟩
  · simp [pct_changeE, ne_of_lt h]
  · unfold pct_changeE
    split <;> simp

/-- Witness for C4 amended, at `old = 0` and at `old = -100`. -/
theorem pct_change_nonpositive_old_behavior_witness :
    pct_changeE 5 0 = .error .zeroDivisionError ∧
      pct_changeE 110 (-100) = .ok (pct_change 110 (-100)) :=
  ⟨(pct_change_nonpositive_old_behavior 5 0).1 rfl,
    (pct_change_nonpositive_old_behavior 110 (-100)).2.1 (by norm_num)⟩

/-- C6: for positive inputs, the percentage change is zero iff the two
rates are equal and positive iff the new rate exceeds the old one
(currency weakened: units-per-USD rose). -/
theorem pct_change_sign (a b : ℚ) (_ha : 0 < a) (hb : 0 < b) :
    (pct_change a b = 0 ↔ a = b) ∧ (0 < pct_change a b ↔ b < a) := by
  unfold pct_change
  constructor
  · rw [mul_eq_zero]
    constructor
    · rintro (h | h)
      · have : a / b = 1 := by linarith
        field_simp at this
        exact this
      · norm_num at h
    · intro h
      left
      rw [h, div_self (ne_of_gt hb)]
      norm_num
  · constructor
    · intro h
      have h1 : (0 : ℚ) < a / b - 1.0 := by
        by_contra hc
        push_neg at hc
        nlinarith
      have h2 : (1 : ℚ) < a / b := by linarith
      rw [lt_div_iff₀ hb] at h2
      linarith
    · intro h
      have h2 : (1 : ℚ) < a / b := by
        rw [lt_div_iff₀ hb]
        linarith
      nlinarith

/-- Witness for C6 at `a = 2`, `b = 1`. -/
theorem pct_change_sign_witness :
    (0 : ℚ) < 2 ∧ (0 : ℚ) < 1 ∧
      ((pct_change 2 1 = 0 ↔ (2 : ℚ) = 1) ∧ (0 < pct_change 2 1 ↔ (1 : ℚ) < 2)) :=
  ⟨by norm_num, by norm_num, pct_change_sign 2 1 (by norm_num) (by norm_num)⟩

/-! ## Number formatting

Python renders the numbers with the format specifications `.2f`, `+.2f`
and `,.2f`.  The embedding renders a rational to two decimal places with
round-half-to-even (the rounding of Python's fixed-point formatting),
with the sign taken from the value itself, so `-0.004` renders as
`-0.00` exactly as in CPython. -/

/-- The character for a decimal digit `d < 10`. -/
def digitChar (d : Nat) : Char := Char.ofNat (48 + d)

/-- Fuel-driven accumulator loop producing decimal digits. -/
def natDigitsAux : Nat → Nat → List Char → List Char
  | 0, _, acc => acc
  | fuel + 1, n, acc =>
    if n < 10 then digitChar n :: acc
    else natDigitsAux fuel (n / 10) (digitChar (n % 10) :: acc)

/-- Decimal digits of a natural number, most significant first. -/
def natDigits (n : Nat) : List Char := natDigitsAux (n + 1) n []

/-- Two-digit, zero-padded rendering of the fractional part (`n ≤ 99`). -/
def pad2 (n : Nat) : List Char :=
  if n < 10 then '0' :: natDigits n else natDigits n

/-- Insert a `,` after every third character of a reversed digit list. -/
def commaRev : List Char → List Char
  | a :: b :: c :: d :: rest => a :: b :: c :: ',' :: commaRev (d :: rest)
  | l => l

/-- Group decimal digits in threes with `,` (Python's `,` format flag). -/
def commaGroup (l : List Char) : List Char := (commaRev l.reverse).reverse

/-- Floor of a rational, computably (`Int.fdiv` is floor division). -/
def ratFloor (q : ℚ) : ℤ := q.num.fdiv q.den

/-- Round to the nearest integer, ties to even. -/
def roundHalfEven (q : ℚ) : ℤ :=
  if q - ratFloor q < 1 / 2 then ratFloor q
  else if 1 / 2 < q - ratFloor q then ratFloor q + 1
  else if ratFloor q % 2 = 0 then ratFloor q else ratFloor q + 1

/-- Magnitude of `x` in hundredths, after rounding to two decimals. -/
def cents (x : ℚ) : ℕ := (roundHalfEven (x * 100)).natAbs

/-- The unsigned digits of `x` rendered to two decimal places. -/
def fixedDigits2 (x : ℚ) : List Char :=
  natDigits (cents x / 100) ++ '.' :: pad2 (cents x % 100)

/-- Python `f"{x:.2f}"`. -/
def pyFixed2 (x : ℚ) : String :=
  ⟨(if x < 0 then ['-'] else []) ++ fixedDigits2 x⟩

/-- Python `f"{x:+.2f}"`: an explicit sign in every case. -/
def pyPlusFixed2 (x : ℚ) : String :=
  ⟨(if x < 0 then ['-'] else ['+']) ++ fixedDigits2 x⟩

/-- Python `f"{x:,.2f}"`: two decimals, thousands separators. -/
def pyCommaFixed2 (x : ℚ) : String :=
  ⟨(if x < 0 then ['-'] else []) ++
    (commaGroup (natDigits (cents x / 100)) ++ '.' :: pad2 (cents x % 100))⟩

/-- `fmt_pct(x)` (source lines 31–32): `f"{x:+.2f}%"`. -/
def fmt_pct (x : ℚ) : String := pyPlusFixed2 x ++ "%"

/-- `fmt_rate(x)` (source lines 60–61): `f"{x:,.2f}"`. -/
def fmt_rate (x : ℚ) : String := pyCommaFixed2 x

/-- `fmt_pct_html(x)` (source lines 63–65): `sign = "+" if x >= 0 else ""`,
then `f"{sign}{x:.2f}%"`. -/
def fmt_pct_html (x : ℚ) : String :=
  (if 0 ≤ x then "+" else "") ++ pyFixed2 x ++ "%"

/-- `pct_class(x)` (source lines 67–68): `"pos" if x >= 0 else "neg"`. -/
def pct_class (x : ℚ) : String := if 0 ≤ x then "pos" else "neg"

/-- Python right-aligned padding `f"{s:>w}"` (no truncation). -/
def padLeft (w : ℕ) (s : String) : String :=
  ⟨List.replicate (w - s.data.length) ' ' ++ s.data⟩

/-- Python left-aligned padding `f"{s:<w}"` (no truncation). -/
def padRight (w : ℕ) (s : String) : String :=
  ⟨s.data ++ List.replicate (w - s.data.length) ' '⟩

/-- The two percentage formatters produce the same string on every
input: for a negative value `fmt_pct_html`'s empty prefix is followed by
the minus sign of `{x:.2f}`, for a non-negative one its `+` prefix plays
the role of `{x:+.2f}`'s plus. -/
theorem fmt_pct_eq_fmt_pct_html (x : ℚ) : fmt_pct x = fmt_pct_html x := by
  unfold fmt_pct fmt_pct_html pyPlusFixed2 pyFixed2
  rcases lt_or_le x 0 with h | h
  · rw [if_pos h, if_pos h, if_neg (not_le.mpr h)]
    rfl
  · rw [if_neg (not_lt.mpr h), if_neg (not_lt.mpr h), if_pos h]
    rfl

/-! ## The two renderers' per-currency numbers

`main` (text body, source lines 207–217) and `build_fx_html_table`
(source lines 74–84) each read the five rates for a currency and compute
the four percentage changes.  Each lookup `rates[label][ccy]` can raise
`KeyError` and each `pct_change` call can raise `ZeroDivisionError`;
the match chains below follow the statements of each source fragment in
evaluation order. -/

/-- The numbers `(spot, ch_1d, ch_7d, ch_1m, ch_1y)` computed for one
currency by the plain-text body loop in `main` (source lines 208–217). -/
def textRowValues (rates : RateDict) (ccy : String) :
    Except PyError (ℚ × ℚ × ℚ × ℚ × ℚ) :=
  match pyGet rates "D-1" with
  | .error e => .error e
  | .ok t1 =>
  match pyGet t1 ccy with
  | .error e => .error e
  | .ok spot =>
  match pyGet rates "D-2" with
  | .error e => .error e
  | .ok t2 =>
  match pyGet t2 ccy with
  | .error e => .error e
  | .ok r2 =>
  match pyGet rates "D-7" with
  | .error e => .error e
  | .ok t7 =>
  match pyGet t7 ccy with
  | .error e => .error e
  | .ok r7 =>
  match pyGet rates "D-30" with
  | .error e => .error e
  | .ok t30 =>
  match pyGet t30 ccy with
  | .error e => .error e
  | .ok r30 =>
  match pyGet rates "D-365" with
  | .error e => .error e
  | .ok t365 =>
  match pyGet t365 ccy with
  | .error e => .error e
  | .ok r365 =>
  match pct_changeE spot r2 with
  | .error e => .error e
  | .ok ch1d =>
  match pct_changeE spot r7 with
  | .error e => .error e
  | .ok ch7d =>
  match pct_changeE spot r30 with
  | .error e => .error e
  | .ok ch1m =>
  match pct_changeE spot r365 with
  | .error e => .error e
  | .ok ch1y => .ok (spot, ch1d, ch7d, ch1m, ch1y)

/-- The numbers `(spot, ch_1d, ch_7d, ch_1m, ch_1y)` computed for one
currency by `build_fx_html_table` (source lines 75–84). -/
def htmlRowValues (rates : RateDict) (ccy : String) :
    Except PyError (ℚ × ℚ × ℚ × ℚ × ℚ) :=
  match pyGet rates "D-1" with
  | .error e => .error e
  | .ok t1 =>
  match pyGet t1 ccy with
  | .error e => .error e
  | .ok spot =>
  match pyGet rates "D-2" with
  | .error e => .error e
  | .ok t2 =>
  match pyGet t2 ccy with
  | .error e => .error e
  | .ok r2 =>
  match pyGet rates "D-7" with
  | .error e => .error e
  | .ok t7 =>
  match pyGet t7 ccy with
  | .error e => .error e
  | .ok r7 =>
  match pyGet rates "D-30" with
  | .error e => .error e
  | .ok t30 =>
  match pyGet t30 ccy with
  | .error e => .error e
  | .ok r30 =>
  match pyGet rates "D-365" with
  | .error e => .error e
  | .ok t365 =>
  match pyGet t365 ccy with
  | .error e => .error e
  | .ok r365 =>
  match pct_changeE spot r2 with
  | .error e => .error e
  | .ok ch1d =>
  match pct_changeE spot r7 with
  | .error e => .error e
  | .ok ch7d =>
  match pct_changeE spot r30 with
  | .error e => .error e
  | .ok ch1m =>
  match pct_changeE spot r365 with
  | .error e => .error e
  | .ok ch1y => .ok (spot, ch1d, ch7d, ch1m, ch1y)

/-- The per-currency loop of `build_fx_html_table`, collecting the row
numbers for each basket currency in order, aborting on the first raised
exception. -/
def rowsLoopHtml (rates : RateDict) : List String →
    Except PyError (List (ℚ × ℚ × ℚ × ℚ × ℚ))
  | [] => .ok []
  | ccy :: rest =>
    match htmlRowValues rates ccy with
    | .error e => .error e
    | .ok r =>
      match rowsLoopHtml rates rest with
      | .error e => .error e
      | .ok rs => .ok (r :: rs)

/-- The per-currency loop of `main`'s text body, collecting the row
numbers for each basket currency in order. -/
def rowsLoopText (rates : RateDict) : List String →
    Except PyError (List (ℚ × ℚ × ℚ × ℚ × ℚ))
  | [] => .ok []
  | ccy :: rest =>
    match textRowValues rates ccy with
    | .error e => .error e
    | .ok r =>
      match rowsLoopText rates rest with
      | .error e => .error e
      | .ok rs => .ok (r :: rs)

/-- Numeric content of the HTML table body (`build_fx_html_table`). -/
def buildRowsHtml (rates : RateDict) : Except PyError (List (ℚ × ℚ × ℚ × ℚ × ℚ)) :=
  rowsLoopHtml rates CURRENCIES

/-- Numeric content of the plain-text table body built in `main`. -/
def buildRowsText (rates : RateDict) : Except PyError (List (ℚ × ℚ × ℚ × ℚ × ℚ)) :=
  rowsLoopText rates CURRENCIES

/-- A rate field of the text body, `f"{r:>12,.2f}"` (source lines 220–227). -/
def textRateField (x : ℚ) : String := padLeft 12 (pyCommaFixed2 x)

/-- The identical computations of the two renderers agree row by row. -/
theorem rowValues_agree (rates : RateDict) (ccy : String) :
    textRowValues rates ccy = htmlRowValues rates ccy := rfl

/-- C1: for every rate-table mapping and every currency, the text body
loop of `main` and `build_fx_html_table` compute identical spot and
percentage-change numbers, the percentage formatters of the two
renderers produce identical strings, and a text rate field is exactly
the HTML renderer's `fmt_rate` output left-padded with spaces. -/
theorem renderers_agree (rates : RateDict) (ccy : String) (x : ℚ) :
    textRowValues rates ccy = htmlRowValues rates ccy ∧
      buildRowsText rates = buildRowsHtml rates ∧
      fmt_pct x = fmt_pct_html x ∧
      textRateField x = padLeft 12 (fmt_rate x) :=
  ⟨rowValues_agree rates ccy, rfl, fmt_pct_eq_fmt_pct_html x, rfl⟩

/-! ## HTML trend cells and escaping -/

/-- One trend cell of the HTML trend row (source lines 103–106):
`<td class="num {pct_class(ch)}">{fmt_pct_html(ch)}</td>`. -/
def trendCell (x : ℚ) : String :=
  "<td class=\"num " ++ pct_class x ++ "\">" ++ fmt_pct_html x ++ "</td>"

/-- C7: a trend cell carries class `pos` (styled positive-green) exactly
when the value is `≥ 0` and class `neg` (negative-red) when it is `< 0`;
a negative change is rendered with a leading minus sign in HTML, and the
HTML percentage string is identical to the text renderer's. -/
theorem trend_cell_styling (x : ℚ) :
    (0 ≤ x → pct_class x = "pos") ∧
      (x < 0 → pct_class x = "neg" ∧
        (fmt_pct_html x).data.head? = some '-' ∧
        (fmt_pct x).data.head? = some '-') ∧
      fmt_pct x = fmt_pct_html x ∧
      trendCell x = "<td class=\"num " ++ pct_class x ++ "\">" ++ fmt_pct_html x ++ "</td>" := by
  refine ⟨fun h => ?_, fun h => ⟨?_, ?_, ?_⟩, fmt_pct_eq_fmt_pct_html x, rfl⟩
  · simp only [pct_class, if_pos h]
  · simp only [pct_class, if_neg (not_le.mpr h)]
  · simp only [fmt_pct_html, if_neg (not_le.mpr h), pyFixed2, if_pos h]
    rfl
  · simp only [fmt_pct, pyPlusFixed2, if_pos h]
    rfl

/-- Witness for C7 at the values `1` and `-1`. -/
theorem trend_cell_styling_witness :
    ((0 : ℚ) ≤ 1 ∧ pct_class 1 = "pos") ∧
      ((-1 : ℚ) < 0 ∧ pct_class (-1) = "neg" ∧
        (fmt_pct_html (-1)).data.head? = some '-' ∧
        (fmt_pct (-1)).data.head? = some '-') :=
  ⟨⟨by norm_num, (trend_cell_styling 1).1 (by norm_num)⟩,
    ⟨by norm_num, (trend_cell_styling (-1)).2.1 (by norm_num)⟩⟩

/-- Replacement table of Python's `html.escape` (its default
`quote=True`): the five HTML-reserved characters become entities. -/
def escapeChar (c : Char) : List Char :=
  if c = '&' then ['&', 'a', 'm', 'p', ';']
  else if c = '<' then ['&', 'l', 't', ';']
  else if c = '>' then ['&', 'g', 't', ';']
  else if c = '"' then ['&', 'q', 'u', 'o', 't', ';']
  else if c = '\'' then ['&', '#', 'x', '2', '7', ';']
  else [c]

/-- `html_lib.escape(s)`, as applied to each currency code (source line 89). -/
def htmlEscape (s : String) : String := ⟨s.data.flatMap escapeChar⟩

/-- The currency cell of an HTML data row (source line 89):
`<td class="ccy">{html_lib.escape(ccy)}</td>`. -/
def ccyCell (ccy : String) : String :=
  "<td class=\"ccy\">" ++ htmlEscape ccy ++ "</td>"

theorem escapeChar_safe (a c : Char) (h : c ∈ escapeChar a) :
    c ≠ '<' ∧ c ≠ '>' ∧ c ≠ '"' ∧ c ≠ '\'' := by
  unfold escapeChar at h
  split at h
  · refine ⟨?_, ?_, ?_, ?_⟩ <;> rintro rfl <;> revert h <;> decide
  split at h
  · refine ⟨?_, ?_, ?_, ?_⟩ <;> rintro rfl <;> revert h <;> decide
  split at h
  · refine ⟨?_, ?_, ?_, ?_⟩ <;> rintro rfl <;> revert h <;> decide
  split at h
  · refine ⟨?_, ?_, ?_, ?_⟩ <;> rintro rfl <;> revert h <;> decide
  split at h
  · refine ⟨?_, ?_, ?_, ?_⟩ <;> rintro rfl <;> revert h <;> decide
  · simp only [List.mem_singleton] at h
    subst h
    refine ⟨?_, ?_, ?_, ?_⟩ <;> assumption

theorem htmlEscape_safe (s : String) (c : Char) (h : c ∈ (htmlEscape s).data) :
    c ≠ '<' ∧ c ≠ '>' ∧ c ≠ '"' ∧ c ≠ '\'' := by
  have h' : c ∈ s.data.flatMap escapeChar := h
  rcases List.mem_flatMap.mp h' with ⟨a, _, hc⟩
  exact escapeChar_safe a c hc

theorem digitChar_safe (d : ℕ) (hd : d < 10) :
    digitChar d ≠ '<' ∧ digitChar d ≠ '>' ∧ digitChar d ≠ '"' ∧ digitChar d ≠ '\'' := by
  interval_cases d <;> exact ⟨by decide, by decide, by decide, by decide⟩

theorem natDigitsAux_mem (fuel : ℕ) : ∀ (n : ℕ) (acc : List Char) (c : Char),
    c ∈ natDigitsAux fuel n acc → c ∈ acc ∨ ∃ d, d < 10 ∧ c = digitChar d := by
  induction fuel with
  | zero => intro n acc c h; exact Or.inl h
  | succ fuel ih =>
    intro n acc c h
    rw [natDigitsAux] at h
    split at h
    · rcases List.mem_cons.mp h with h1 | h1
      · exact Or.inr ⟨n, by omega, h1⟩
      · exact Or.inl h1
    · rcases ih (n / 10) (digitChar (n % 10) :: acc) c h with h1 | h1
      · rcases List.mem_cons.mp h1 with h2 | h2
        · exact Or.inr ⟨n % 10, Nat.mod_lt n (by omega), h2⟩
        · exact Or.inl h2
      · exact Or.inr h1

theorem natDigits_mem (n : ℕ) (c : Char) (h : c ∈ natDigits n) :
    ∃ d, d < 10 ∧ c = digitChar d := by
  rcases natDigitsAux_mem (n + 1) n [] c h with h' | h'
  · simp at h'
  · exact h'

theorem pad2_mem (n : ℕ) (c : Char) (h : c ∈ pad2 n) :
    ∃ d, d < 10 ∧ c = digitChar d := by
  unfold pad2 at h
  split at h
  · rcases List.mem_cons.mp h with h' | h'
    · exact ⟨0, by omega, h'.trans (by decide)⟩
    · exact natDigits_mem n c h'
  · exact natDigits_mem n c h

theorem commaRev_mem (l : List Char) (c : Char) (h : c ∈ commaRev l) : c ∈ l ∨ c = ',' := by
  match l with
  | a :: b :: d :: e :: rest =>
    rw [commaRev] at h
    rcases List.mem_cons.mp h with h1 | h1
    · exact Or.inl (by simp [h1])
    rcases List.mem_cons.mp h1 with h2 | h2
    · exact Or.inl (by simp [h2])
    rcases List.mem_cons.mp h2 with h3 | h3
    · exact Or.inl (by simp [h3])
    rcases List.mem_cons.mp h3 with h4 | h4
    · exact Or.inr h4
    · rcases commaRev_mem (e :: rest) c h4 with h5 | h5
      · rcases List.mem_cons.mp h5 with h6 | h6
        · exact Or.inl (by simp [h6])
        · exact Or.inl (by simp [h6])
      · exact Or.inr h5
  | [] => exact Or.inl h
  | [a] => exact Or.inl h
  | [a, b] => exact Or.inl h
  | [a, b, d] => exact Or.inl h

theorem commaGroup_mem (l : List Char) (c : Char) (h : c ∈ commaGroup l) :
    c ∈ l ∨ c = ',' := by
  unfold commaGroup at h
  rw [List.mem_reverse] at h
  rcases commaRev_mem _ c h with h1 | h1
  · exact Or.inl (List.mem_reverse.mp h1)
  · exact Or.inr h1

theorem fixedDigits2_safe (x : ℚ) (c : Char) (h : c ∈ fixedDigits2 x) :
    c ≠ '<' ∧ c ≠ '>' ∧ c ≠ '"' ∧ c ≠ '\'' := by
  unfold fixedDigits2 at h
  rcases List.mem_append.mp h with h1 | h1
  · rcases natDigits_mem _ c h1 with ⟨d, hd, rfl⟩
    exact digitChar_safe d hd
  · rcases List.mem_cons.mp h1 with h2 | h2
    · subst h2; exact ⟨by decide, by decide, by decide, by decide⟩
    · rcases pad2_mem _ c h2 with ⟨d, hd, rfl⟩
      exact digitChar_safe d hd

theorem fmt_rate_safe (x : ℚ) (c : Char) (h : c ∈ (fmt_rate x).data) :
    c ≠ '<' ∧ c ≠ '>' ∧ c ≠ '"' ∧ c ≠ '\'' := by
  have h' : c ∈ (if x < 0 then ['-'] else []) ++
      (commaGroup (natDigits (cents x / 100)) ++ '.' :: pad2 (cents x % 100)) := h
  rcases List.mem_append.mp h' with h1 | h1
  · have hc : c = '-' := by
      split at h1
      · simpa using h1
      · simp at h1
    subst hc; exact ⟨by decide, by decide, by decide, by decide⟩
  · rcases List.mem_append.mp h1 with h2 | h2
    · rcases commaGroup_mem _ c h2 with h3 | h3
      · rcases natDigits_mem _ c h3 with ⟨d, hd, rfl⟩
        exact digitChar_safe d hd
      · subst h3; exact ⟨by decide, by decide, by decide, by decide⟩
    · rcases List.mem_cons.mp h2 with h3 | h3
      · subst h3; exact ⟨by decide, by decide, by decide, by decide⟩
      · rcases pad2_mem _ c h3 with ⟨d, hd, rfl⟩
        exact digitChar_safe d hd

theorem fmt_pct_html_safe (x : ℚ) (c : Char) (h : c ∈ (fmt_pct_html x).data) :
    c ≠ '<' ∧ c ≠ '>' ∧ c ≠ '"' ∧ c ≠ '\'' := by
  unfold fmt_pct_html at h
  rw [String.data_append, String.data_append] at h
  rcases List.mem_append.mp h with h1 | h1
  swap
  · have hc : c = '%' := by simpa using h1
    subst hc; exact ⟨by decide, by decide, by decide, by decide⟩
  rcases List.mem_append.mp h1 with h2 | h2
  · have hc : c = '+' := by
      split at h2
      · simpa using h2
      · simp at h2
    subst hc; exact ⟨by decide, by decide, by decide, by decide⟩
  · have h3 : c ∈ (if x < 0 then ['-'] else []) ++ fixedDigits2 x := h2
    rcases List.mem_append.mp h3 with h4 | h4
    · have hc : c = '-' := by
        split at h4
        · simpa using h4
        · simp at h4
      subst hc; exact ⟨by decide, by decide, by decide, by decide⟩
    · exact fixedDigits2_safe x c h4

/-- C9: every character of an escaped currency code, of a formatted rate
and of a formatted percentage — the only data-derived fragments
`build_fx_html_table` interpolates — is a non-reserved character: no
unescaped `<`, `>`, `"` or `'` from input data reaches the markup, and
the currency cell is built from the escaped code. -/
theorem html_interpolations_escaped (s : String) (x y : ℚ) (c : Char)
    (h : c ∈ (htmlEscape s).data ∨ c ∈ (fmt_rate x).data ∨ c ∈ (fmt_pct_html y).data) :
    (c ≠ '<' ∧ c ≠ '>' ∧ c ≠ '"' ∧ c ≠ '\'') ∧
      ccyCell s = "<td class=\"ccy\">" ++ htmlEscape s ++ "</td>" := by
  refine ⟨?_, rfl⟩
  rcases h with h | h | h
  · exact htmlEscape_safe s c h
  · exact fmt_rate_safe x c h
  · exact fmt_pct_html_safe y c h

/-- Witness for C9: a currency code containing reserved characters. -/
theorem html_interpolations_escaped_witness :
    ('K' ∈ (htmlEscape "<KES>").data ∨ 'K' ∈ (fmt_rate 0).data ∨ 'K' ∈ (fmt_pct_html 0).data) ∧
      ('K' ≠ '<' ∧ 'K' ≠ '>' ∧ 'K' ≠ '"' ∧ 'K' ≠ '\'') :=
  ⟨Or.inl (by decide),
    (html_interpolations_escaped "<KES>" 0 0 'K' (Or.inl (by decide))).1⟩

/-! ## Rate retrieval (`get_rates_for_day`) -/

/-- A historical-rates HTTP response, as `get_rates_for_day` consumes
it: whether the status is a success (so `raise_for_status` passes) and
the parsed JSON object, whose `"rates"` key holds the rate table. -/
structure HttpResponse where
  statusOk : Bool
  payload : List (String × Table)

/-- `get_rates_for_day` (source lines 16–24): raise `HTTPError` on a
non-success status, otherwise return `data["rates"]` — with no check
that the configured currency codes are present in the table. -/
def get_rates_for_day (r : HttpResponse) : Except PyError Table :=
  if r.statusOk then pyGet r.payload "rates" else .error .httpError

/-- `pyGet` only ever fails with a `KeyError` naming the looked-up key. -/
theorem pyGet_error {α : Type} (l : List (String × α)) (k : String) (e : PyError)
    (h : pyGet l k = .error e) : e = .keyError k := by
  induction l with
  | nil =>
    simp only [pyGet, Except.error.injEq] at h
    exact h.symm
  | cons p rest ih =>
    obtain ⟨k', v⟩ := p
    unfold pyGet at h
    split at h
    · simp at h
    · exact ih h

/-- `pct_changeE` only ever fails with a `ZeroDivisionError`. -/
theorem pct_changeE_error (new old : ℚ) (e : PyError)
    (h : pct_changeE new old = .error e) : e = .zeroDivisionError := by
  unfold pct_changeE at h
  split at h
  · simp only [Except.error.injEq] at h
    exact h.symm
  · simp at h

/-- C3 amended: `get_rates_for_day` performs no currency-completeness
check — any successful response's `rates` mapping is returned as-is,
whatever currencies it holds. -/
theorem fetch_returns_rates_unvalidated (r : HttpResponse) (t : Table)
    (hs : r.statusOk = true) (hp : pyGet r.payload "rates" = .ok t) :
    get_rates_for_day r = .ok t := by
  unfold get_rates_for_day
  rw [hs, if_pos rfl, hp]

/-- The rate table returned for a payload missing `NGN`. -/
def ngnLessTable : Table := [("KES", 129), ("UGX", 3700), ("TZS", 2600)]

/-- Five labelled copies of the `NGN`-less table, as they would be
passed to report construction. -/
def ngnLessRates : RateDict := LABELS.map fun l => (l, ngnLessTable)

/-- C3 counterexample: a success payload whose table lacks the
configured currency `NGN` is returned intact by `get_rates_for_day`
(no `RateFetchError`), and the failure only surfaces later, inside
report construction, as a `KeyError` — after the `KES` and `UGX` rows
(percentage changes included) were already computed. -/
theorem fetch_missing_currency_succeeds :
    get_rates_for_day ⟨true, [("rates", ngnLessTable)]⟩ = .ok ngnLessTable ∧
      get_rates_for_day ⟨true, [("rates", ngnLessTable)]⟩ ≠ .error .rateFetchError ∧
      pyGet ngnLessTable "NGN" = .error (.keyError "NGN") ∧
      buildRowsHtml ngnLessRates = .error (.keyError "NGN") ∧
      (htmlRowValues ngnLessRates "KES").isOk = true ∧
      (htmlRowValues ngnLessRates "UGX").isOk = true := by
  refine ⟨rfl, ?_, rfl, rfl, rfl, rfl⟩
  intro hc
  rw [show get_rates_for_day ⟨true, [("rates", ngnLessTable)]⟩ = .ok ngnLessTable from rfl] at hc
  simp at hc

/-- Witness for C3 amended, on the `NGN`-less payload. -/
theorem fetch_returns_rates_unvalidated_witness :
    (HttpResponse.mk true [("rates", ngnLessTable)]).statusOk = true ∧
      pyGet (HttpResponse.mk true [("rates", ngnLessTable)]).payload "rates" = .ok ngnLessTable ∧
      get_rates_for_day ⟨true, [("rates", ngnLessTable)]⟩ = .ok ngnLessTable :=
  ⟨rfl, rfl, fetch_returns_rates_unvalidated ⟨true, [("rates", ngnLessTable)]⟩ ngnLessTable rfl rfl⟩

/-! ## Missing horizon labels (claim C5) -/

/-- If one of the five horizon labels is absent from the mapping, the
first row computation of `build_fx_html_table` raises — and whatever it
raises is never the specification's `IncompleteRateDataError`, a class
the code does not have. -/
theorem htmlRowValues_missing_label (rates : RateDict)
    (hmiss : ∃ l ∈ LABELS, pyGet rates l = .error (.keyError l)) :
    ∃ e, htmlRowValues rates "KES" = .error e ∧ e ≠ .incompleteRateDataError := by
  cases h1 : pyGet rates "D-1" with
  | error e1 =>
    refine ⟨e1, by unfold htmlRowValues; simp only [h1], ?_⟩
    rw [pyGet_error _ _ _ h1]; simp
  | ok t1 =>
  cases h2 : pyGet t1 "KES" with
  | error e1 =>
    refine ⟨e1, by unfold htmlRowValues; simp only [h1, h2], ?_⟩
    rw [pyGet_error _ _ _ h2]; simp
  | ok spot =>
  cases h3 : pyGet rates "D-2" with
  | error e1 =>
    refine ⟨e1, by unfold htmlRowValues; simp only [h1, h2, h3], ?_⟩
    rw [pyGet_error _ _ _ h3]; simp
  | ok t2 =>
  cases h4 : pyGet t2 "KES" with
  | error e1 =>
    refine ⟨e1, by unfold htmlRowValues; simp only [h1, h2, h3, h4], ?_⟩
    rw [pyGet_error _ _ _ h4]; simp
  | ok r2 =>
  cases h5 : pyGet rates "D-7" with
  | error e1 =>
    refine ⟨e1, by unfold htmlRowValues; simp only [h1, h2, h3, h4, h5], ?_⟩
    rw [pyGet_error _ _ _ h5]; simp
  | ok t7 =>
  cases h6 : pyGet t7 "KES" with
  | error e1 =>
    refine ⟨e1, by unfold htmlRowValues; simp only [h1, h2, h3, h4, h5, h6], ?_⟩
    rw [pyGet_error _ _ _ h6]; simp
  | ok r7 =>
  cases h7 : pyGet rates "D-30" with
  | error e1 =>
    refine ⟨e1, by unfold htmlRowValues; simp only [h1, h2, h3, h4, h5, h6, h7], ?_⟩
    rw [pyGet_error _ _ _ h7]; simp
  | ok t30 =>
  cases h8 : pyGet t30 "KES" with
  | error e1 =>
    refine ⟨e1, by unfold htmlRowValues; simp only [h1, h2, h3, h4, h5, h6, h7, h8], ?_⟩
    rw [pyGet_error _ _ _ h8]; simp
  | ok r30 =>
  cases h9 : pyGet rates "D-365" with
  | error e1 =>
    refine ⟨e1, by unfold htmlRowValues; simp only [h1, h2, h3, h4, h5, h6, h7, h8, h9], ?_⟩
    rw [pyGet_error _ _ _ h9]; simp
  | ok t365 =>
  cases h10 : pyGet t365 "KES" with
  | error e1 =>
    refine ⟨e1, by unfold htmlRowValues; simp only [h1, h2, h3, h4, h5, h6, h7, h8, h9, h10], ?_⟩
    rw [pyGet_error _ _ _ h10]; simp
  | ok r365 =>
  cases h11 : pct_changeE spot r2 with
  | error e1 =>
    refine ⟨e1, ?_, ?_⟩
    · unfold htmlRowValues
      simp only [h1, h2, h3, h4, h5, h6, h7, h8, h9, h10, h11]
    · rw [pct_changeE_error _ _ _ h11]; simp
  | ok ch1d =>
  cases h12 : pct_changeE spot r7 with
  | error e1 =>
    refine ⟨e1, ?_, ?_⟩
    · unfold htmlRowValues
      simp only [h1, h2, h3, h4, h5, h6, h7, h8, h9, h10, h11, h12]
    · rw [pct_changeE_error _ _ _ h12]; simp
  | ok ch7d =>
  cases h13 : pct_changeE spot r30 with
  | error e1 =>
    refine ⟨e1, ?_, ?_⟩
    · unfold htmlRowValues
      simp only [h1, h2, h3, h4, h5, h6, h7, h8, h9, h10, h11, h12, h13]
    · rw [pct_changeE_error _ _ _ h13]; simp
  | ok ch1m =>
  cases h14 : pct_changeE spot r365 with
  | error e1 =>
    refine ⟨e1, ?_, ?_⟩
    · unfold htmlRowValues
      simp only [h1, h2, h3, h4, h5, h6, h7, h8, h9, h10, h11, h12, h13, h14]
    · rw [pct_changeE_error _ _ _ h14]; simp
  | ok ch1y =>
    exfalso
    rcases hmiss with ⟨l, hl, hpe⟩
    simp only [LABELS, List.mem_cons, List.not_mem_nil, or_false] at hl
    rcases hl with rfl | rfl | rfl | rfl | rfl
    · rw [h1] at hpe; simp at hpe
    · rw [h3] at hpe; simp at hpe
    · rw [h5] at hpe; simp at hpe
    · rw [h7] at hpe; simp at hpe
    · rw [h9] at hpe; simp at hpe

/-- C5 amended: a rate mapping missing one of the five labels makes
report construction fail — no partial report is produced — but with a
`KeyError` (or a `ZeroDivisionError` raised even earlier), never with
an `IncompleteRateDataError`, which does not exist in the code. -/
theorem build_missing_label_raises (rates : RateDict)
    (hmiss : ∃ l ∈ LABELS, pyGet rates l = .error (.keyError l)) :
    ∃ e, buildRowsHtml rates = .error e ∧ e ≠ .incompleteRateDataError := by
  rcases htmlRowValues_missing_label rates hmiss with ⟨e, he, hne⟩
  refine ⟨e, ?_, hne⟩
  unfold buildRowsHtml CURRENCIES rowsLoopHtml
  simp only [he]

/-- A mapping with only four of the five required labels. -/
def fourLabelRates : RateDict :=
  [("D-1", [("KES", 129), ("UGX", 3700), ("NGN", 1550), ("TZS", 2600)]),
   ("D-2", [("KES", 128), ("UGX", 3690), ("NGN", 1540), ("TZS", 2590)]),
   ("D-7", [("KES", 127), ("UGX", 3680), ("NGN", 1530), ("TZS", 2580)]),
   ("D-30", [("KES", 126), ("UGX", 3670), ("NGN", 1520), ("TZS", 2570)])]

/-- C5 counterexample: with `D-365` absent, report construction fails
with `KeyError("D-365")`, not with `IncompleteRateDataError`. -/
theorem build_missing_label_not_incompleteRateDataError :
    buildRowsHtml fourLabelRates = .error (.keyError "D-365") ∧
      buildRowsHtml fourLabelRates ≠ .error .incompleteRateDataError := by
  refine ⟨rfl, ?_⟩
  intro hc
  rw [show buildRowsHtml fourLabelRates = .error (.keyError "D-365") from rfl] at hc
  simp at hc

/-- Witness for C5 amended, on the four-label mapping. -/
theorem build_missing_label_raises_witness :
    (∃ l ∈ LABELS, pyGet fourLabelRates l = .error (.keyError l)) ∧
      ∃ e, buildRowsHtml fourLabelRates = .error e ∧ e ≠ .incompleteRateDataError :=
  ⟨⟨"D-365", by decide, rfl⟩,
    build_missing_label_raises fourLabelRates ⟨"D-365", by decide, rfl⟩⟩

/-! ## `build_email_body` (source lines 35–58) -/

/-- An `Except` that is `ok` holds a value. -/
theorem isOk_exists {α : Type} {x : Except PyError α} (h : x.isOk = true) :
    ∃ v, x = .ok v := by
  cases x with
  | error e => simp [Except.isOk, Except.toBool] at h
  | ok v => exact ⟨v, rfl⟩

/-- The column header of `build_email_body` (source line 50). -/
def bodyHeader : String :=
  padRight 5 "CCY" ++ " " ++ padLeft 14 "Spot" ++ " " ++ padLeft 10 "1D" ++ " " ++
    padLeft 10 "7D" ++ " " ++ padLeft 10 "1M" ++ " " ++ padLeft 10 "1Y"

/-- The separator rule `"-" * len(header)` (source line 52). -/
def bodyRule : String := ⟨List.replicate bodyHeader.data.length '-'⟩

/-- The fixed lines `build_email_body` appends before its loop
(source lines 45–52); they carry no rate data. -/
def bodyFixedLines (anchorIso : String) : List String :=
  ["FX summary (base " ++ BASE ++ ") for " ++ anchorIso ++ " (previous day spot)",
   "", "Quoted as: 1 USD = X CCY", "", bodyHeader, bodyRule]

/-- One iteration of `build_email_body`'s loop (source lines 54–56):
`spot = y[ccy]` then
`ch_1d = pct_change(y[ccy], d7[ccy]) if False else pct_change(y[ccy], rates["D-2"][ccy])`.
The conditional's test is `False`, so only the `else` operand is
evaluated: `y[ccy]`, then `rates["D-2"]`, then its `[ccy]`, then the
division.  Nothing is appended to `lines`. -/
def bodyLoopIter (rates : RateDict) (y : Table) (ccy : String) : Except PyError Unit :=
  match pyGet y ccy with
  | .error e => .error e
  | .ok _spot =>
  match pyGet y ccy with
  | .error e => .error e
  | .ok yv =>
  match pyGet rates "D-2" with
  | .error e => .error e
  | .ok t2 =>
  match pyGet t2 ccy with
  | .error e => .error e
  | .ok r2 =>
  match pct_changeE yv r2 with
  | .error e => .error e
  | .ok _ => .ok ()

/-- The `for ccy in CURRENCIES` loop of `build_email_body`. -/
def bodyLoop (rates : RateDict) (y : Table) : List String → Except PyError Unit
  | [] => .ok ()
  | c :: rest =>
    match bodyLoopIter rates y c with
    | .error e => .error e
    | .ok _ => bodyLoop rates y rest

/-- `build_email_body(anchor, rates)` (source lines 35–58): look up the
four tables `y`, `d7`, `d30`, `d365`, collect the fixed lines, run the
per-currency loop (which appends nothing), and join the lines. -/
def build_email_body (anchorIso : String) (rates : RateDict) : Except PyError String :=
  match pyGet rates "D-1" with
  | .error e => .error e
  | .ok y =>
  match pyGet rates "D-7" with
  | .error e => .error e
  | .ok _d7 =>
  match pyGet rates "D-30" with
  | .error e => .error e
  | .ok _d30 =>
  match pyGet rates "D-365" with
  | .error e => .error e
  | .ok _d365 =>
  match bodyLoop rates y CURRENCIES with
  | .error e => .error e
  | .ok _ => .ok (String.intercalate "\n" (bodyFixedLines anchorIso))

theorem bodyLoopIter_ok (rates : RateDict) (y : Table) (c : String) (t2 : Table)
    (h2 : pyGet rates "D-2" = .ok t2)
    (hyc : (pyGet y c).isOk = true)
    (ht2c : ∃ r, pyGet t2 c = .ok r ∧ r ≠ 0) :
    bodyLoopIter rates y c = .ok () := by
  rcases isOk_exists hyc with ⟨yv, hyv⟩
  rcases ht2c with ⟨r, hr, hr0⟩
  have hpc : pct_changeE yv r = .ok (pct_change yv r) := by
    unfold pct_changeE
    rw [if_neg hr0]
  unfold bodyLoopIter
  simp only [hyv, h2, hr, hpc]

/-- C10 amended: for a mapping with all five labels whose `D-1` and
`D-2` tables are complete (with nonzero `D-2` rates, so the loop's
divisions succeed), `build_email_body` returns exactly the title line,
the quoting note, the column header and the separator rule — a string
independent of every rate value, since the loop appends nothing. -/
theorem build_email_body_header_only (a : String) (rates : RateDict) (y t2 : Table)
    (h1 : pyGet rates "D-1" = .ok y)
    (h7 : (pyGet rates "D-7").isOk = true)
    (h30 : (pyGet rates "D-30").isOk = true)
    (h365 : (pyGet rates "D-365").isOk = true)
    (h2 : pyGet rates "D-2" = .ok t2)
    (hy : ∀ c ∈ CURRENCIES, (pyGet y c).isOk = true)
    (ht2 : ∀ c ∈ CURRENCIES, ∃ r, pyGet t2 c = .ok r ∧ r ≠ 0) :
    build_email_body a rates = .ok (String.intercalate "\n" (bodyFixedLines a)) := by
  have hK := bodyLoopIter_ok rates y "KES" t2 h2 (hy "KES" (by decide)) (ht2 "KES" (by decide))
  have hU := bodyLoopIter_ok rates y "UGX" t2 h2 (hy "UGX" (by decide)) (ht2 "UGX" (by decide))
  have hN := bodyLoopIter_ok rates y "NGN" t2 h2 (hy "NGN" (by decide)) (ht2 "NGN" (by decide))
  have hT := bodyLoopIter_ok rates y "TZS" t2 h2 (hy "TZS" (by decide)) (ht2 "TZS" (by decide))
  have hloop : bodyLoop rates y CURRENCIES = .ok () := by
    unfold CURRENCIES
    simp only [bodyLoop, hK, hU, hN, hT]
  rcases isOk_exists h7 with ⟨t7, ht7⟩
  rcases isOk_exists h30 with ⟨t30, ht30⟩
  rcases isOk_exists h365 with ⟨t365, ht365⟩
  unfold build_email_body
  simp only [h1, ht7, ht30, ht365, hloop]

/-- A complete five-label mapping with all four currencies present. -/
def fullRates : RateDict :=
  [("D-1", [("KES", 129), ("UGX", 3700), ("NGN", 1550), ("TZS", 2600)]),
   ("D-2", [("KES", 128), ("UGX", 3690), ("NGN", 1540), ("TZS", 2590)]),
   ("D-7", [("KES", 127), ("UGX", 3680), ("NGN", 1530), ("TZS", 2580)]),
   ("D-30", [("KES", 126), ("UGX", 3670), ("NGN", 1520), ("TZS", 2570)]),
   ("D-365", [("KES", 125), ("UGX", 3660), ("NGN", 1510), ("TZS", 2560)])]

/-- Witness for C10 amended: on a complete mapping the function returns
the fixed header lines and nothing else. -/
theorem build_email_body_header_only_witness :
    build_email_body "2024-03-15" fullRates =
      .ok (String.intercalate "\n" (bodyFixedLines "2024-03-15")) :=
  build_email_body_header_only "2024-03-15" fullRates _ _ rfl rfl rfl rfl rfl
    (by
      intro c hc
      simp only [CURRENCIES, List.mem_cons, List.not_mem_nil, or_false] at hc
      rcases hc with rfl | rfl | rfl | rfl <;> rfl)
    (by
      intro c hc
      simp only [CURRENCIES, List.mem_cons, List.not_mem_nil, or_false] at hc
      rcases hc with rfl | rfl | rfl | rfl <;> exact ⟨_, rfl, by norm_num⟩)

/-- A mapping with all five labels present but an empty `D-2` table. -/
def d2EmptyRates : RateDict :=
  [("D-1", [("KES", 129), ("UGX", 3700), ("NGN", 1550), ("TZS", 2600)]),
   ("D-2", []),
   ("D-7", [("KES", 127), ("UGX", 3680), ("NGN", 1530), ("TZS", 2580)]),
   ("D-30", [("KES", 126), ("UGX", 3670), ("NGN", 1520), ("TZS", 2570)]),
   ("D-365", [("KES", 125), ("UGX", 3660), ("NGN", 1510), ("TZS", 2560)])]

/-- C10 counterexample: a mapping containing all five labels on which
`build_email_body` does not return a string at all — its loop evaluates
`rates["D-2"][ccy]` and raises `KeyError("KES")` — so "contains all
five labels" alone does not make the function return the header-only
string. -/
theorem build_email_body_five_labels_can_raise :
    ((pyGet d2EmptyRates "D-1").isOk = true ∧ (pyGet d2EmptyRates "D-2").isOk = true ∧
      (pyGet d2EmptyRates "D-7").isOk = true ∧ (pyGet d2EmptyRates "D-30").isOk = true ∧
      (pyGet d2EmptyRates "D-365").isOk = true) ∧
      build_email_body "2024-03-15" d2EmptyRates = .error (.keyError "KES") ∧
      (build_email_body "2024-03-15" d2EmptyRates).isOk = false :=
  ⟨⟨rfl, rfl, rfl, rfl, rfl⟩, rfl, rfl⟩

/-! ## Process run (`main` under `__main__`, source lines 159–270) -/

/-- Observable outcome of one process run: exit status (0 success,
1 uncaught exception, 2 from the `KeyError` handler in `__main__`),
number of rate fetches performed, and whether the email was sent. -/
structure RunResult where
  exitCode : ℕ
  fetchCalls : ℕ
  emailSent : Bool
deriving DecidableEq

/-- `os.environ[k]`: raises `KeyError` when the variable is unset. -/
def envGet (env : List (String × String)) (k : String) : Except PyError String :=
  pyGet env k

/-- `os.environ.get(k, d)`: the value when set, else the default. -/
def envGetD (env : List (String × String)) (k : String) (d : String) : String :=
  match pyGet env k with
  | .ok v => v
  | .error _ => d

/-- Numeric value of a decimal digit string, most significant first. -/
def digitsVal (ds : List Char) : ℕ := ds.foldl (fun n c => 10 * n + (c.toNat - 48)) 0

/-- Python `int(s)` for the strings this program converts: an
optionally signed, nonempty decimal-digit sequence parses; anything
else raises `ValueError`.  (CPython additionally strips surrounding
whitespace and allows `_` separators; neither form changes which of
this program's paths succeed.) -/
def pyInt (s : String) : Except PyError ℤ :=
  match s.data with
  | [] => .error .valueError
  | '-' :: ds =>
    if !ds.isEmpty && ds.all Char.isDigit then .ok (-(digitsVal ds : ℤ))
    else .error .valueError
  | '+' :: ds =>
    if !ds.isEmpty && ds.all Char.isDigit then .ok (digitsVal ds)
    else .error .valueError
  | ds =>
    if ds.all Char.isDigit then .ok (digitsVal ds) else .error .valueError

/-- The environment variables `main` reads with a bare subscript.
`SMTP_PORT` is not among them: it is read with a default
(`os.environ.get("SMTP_PORT", "587")`, source line 164), so its
*absence* cannot fail — but its `int(...)` conversion can raise
`ValueError`, modelled as a separate step of `runMain`. -/
def REQUIRED_ENV : List String :=
  ["OXR_APP_ID", "SMTP_HOST", "SMTP_USER", "SMTP_PASS", "EMAIL_FROM", "EMAIL_TO"]

/-- Exit status assigned by `__main__` (source lines 265–270) to an
exception escaping `main`: `KeyError` is caught and mapped to exit
code 2, any other exception terminates the interpreter with code 1. -/
def exitOfError : PyError → ℕ
  | .keyError _ => 2
  | _ => 1

/-- One run of `main` under `__main__`'s handler.  `env` is the process
environment, `fetch` yields the HTTP response for each horizon date
(dates are represented by their horizon labels; nothing here depends on
calendar arithmetic), and `smtpOk` tells whether the SMTP session
succeeds.  Environment reads (source lines 161–169, including the
`int(os.environ.get("SMTP_PORT", "587"))` conversion of line 164,
whose `ValueError` is not a `KeyError` and so escapes `__main__` with
exit code 1) precede all five fetches (lines 180–186), which precede
rendering and sending. -/
def runMain (env : List (String × String)) (fetch : String → HttpResponse)
    (smtpOk : Bool) : RunResult :=
  match envGet env "OXR_APP_ID" with
  | .error _ => ⟨2, 0, false⟩
  | .ok _ =>
  match envGet env "SMTP_HOST" with
  | .error _ => ⟨2, 0, false⟩
  | .ok _ =>
  match pyInt (envGetD env "SMTP_PORT" "587") with
  | .error _ => ⟨1, 0, false⟩
  | .ok _ =>
  match envGet env "SMTP_USER" with
  | .error _ => ⟨2, 0, false⟩
  | .ok _ =>
  match envGet env "SMTP_PASS" with
  | .error _ => ⟨2, 0, false⟩
  | .ok _ =>
  match envGet env "EMAIL_FROM" with
  | .error _ => ⟨2, 0, false⟩
  | .ok _ =>
  match envGet env "EMAIL_TO" with
  | .error _ => ⟨2, 0, false⟩
  | .ok _ =>
  match get_rates_for_day (fetch "D-1") with
  | .error e => ⟨exitOfError e, 1, false⟩
  | .ok t1 =>
  match get_rates_for_day (fetch "D-2") with
  | .error e => ⟨exitOfError e, 2, false⟩
  | .ok t2 =>
  match get_rates_for_day (fetch "D-7") with
  | .error e => ⟨exitOfError e, 3, false⟩
  | .ok t7 =>
  match get_rates_for_day (fetch "D-30") with
  | .error e => ⟨exitOfError e, 4, false⟩
  | .ok t30 =>
  match get_rates_for_day (fetch "D-365") with
  | .error e => ⟨exitOfError e, 5, false⟩
  | .ok t365 =>
  match buildRowsText [("D-1", t1), ("D-2", t2), ("D-7", t7), ("D-30", t30), ("D-365", t365)] with
  | .error e => ⟨exitOfError e, 5, false⟩
  | .ok _ =>
  match buildRowsHtml [("D-1", t1), ("D-2", t2), ("D-7", t7), ("D-30", t30), ("D-365", t365)] with
  | .error e => ⟨exitOfError e, 5, false⟩
  | .ok _ => if smtpOk then ⟨0, 5, true⟩ else ⟨1, 5, false⟩

/-- C8 amended: a missing required setting aborts the run before any
fetch with no email sent and a nonzero exit code; the exit code is 2
(the `KeyError` handler of `__main__`) whenever the `SMTP_PORT` setting
— or its default `"587"` — converts with `int()`, while a non-numeric
`SMTP_PORT` aborts even earlier in the read sequence with an uncaught
`ValueError`, exit code 1.  A transport-level fetch failure exits with
code 1 after the first fetch, and a delivery failure turns an otherwise
successful run into exit code 1 with no email sent; but see the
counterexample for the malformed-payload fetch failure that shares exit
code 2 with the configuration failure. -/
theorem config_missing_aborts (env : List (String × String))
    (fetch : String → HttpResponse) (smtpOk : Bool) :
    ((∃ k ∈ REQUIRED_ENV, envGet env k = .error (.keyError k)) →
        (runMain env fetch smtpOk).fetchCalls = 0 ∧
          (runMain env fetch smtpOk).emailSent = false ∧
          (runMain env fetch smtpOk).exitCode ≠ 0 ∧
          ((pyInt (envGetD env "SMTP_PORT" "587")).isOk = true →
            runMain env fetch smtpOk = ⟨2, 0, false⟩)) ∧
      ((∀ k ∈ REQUIRED_ENV, (envGet env k).isOk = true) →
        (pyInt (envGetD env "SMTP_PORT" "587")).isOk = true →
        (fetch "D-1").statusOk = false →
        runMain env fetch smtpOk = ⟨1, 1, false⟩) ∧
      (runMain env fetch true = ⟨0, 5, true⟩ →
        runMain env fetch false = ⟨1, 5, false⟩) := by
  refine ⟨?_, ?_, ?_⟩
  · rintro ⟨k, hk, hke⟩
    cases e1 : envGet env "OXR_APP_ID" with
    | error e =>
      have hrm : runMain env fetch smtpOk = ⟨2, 0, false⟩ := by
        unfold runMain; simp only [e1]
      rw [hrm]
      exact ⟨rfl, rfl, by norm_num, fun _ => rfl⟩
    | ok v1 =>
    cases e2 : envGet env "SMTP_HOST" with
    | error e =>
      have hrm : runMain env fetch smtpOk = ⟨2, 0, false⟩ := by
        unfold runMain; simp only [e1, e2]
      rw [hrm]
      exact ⟨rfl, rfl, by norm_num, fun _ => rfl⟩
    | ok v2 =>
    cases ep : pyInt (envGetD env "SMTP_PORT" "587") with
    | error e =>
      have hrm : runMain env fetch smtpOk = ⟨1, 0, false⟩ := by
        unfold runMain; simp only [e1, e2, ep]
      rw [hrm]
      refine ⟨rfl, rfl, by norm_num, fun hp => ?_⟩
      simp [Except.isOk, Except.toBool] at hp
    | ok p =>
    cases e3 : envGet env "SMTP_USER" with
    | error e =>
      have hrm : runMain env fetch smtpOk = ⟨2, 0, false⟩ := by
        unfold runMain; simp only [e1, e2, ep, e3]
      rw [hrm]
      exact ⟨rfl, rfl, by norm_num, fun _ => rfl⟩
    | ok v3 =>
    cases e4 : envGet env "SMTP_PASS" with
    | error e =>
      have hrm : runMain env fetch smtpOk = ⟨2, 0, false⟩ := by
        unfold runMain; simp only [e1, e2, ep, e3, e4]
      rw [hrm]
      exact ⟨rfl, rfl, by norm_num, fun _ => rfl⟩
    | ok v4 =>
    cases e5 : envGet env "EMAIL_FROM" with
    | error e =>
      have hrm : runMain env fetch smtpOk = ⟨2, 0, false⟩ := by
        unfold runMain; simp only [e1, e2, ep, e3, e4, e5]
      rw [hrm]
      exact ⟨rfl, rfl, by norm_num, fun _ => rfl⟩
    | ok v5 =>
    cases e6 : envGet env "EMAIL_TO" with
    | error e =>
      have hrm : runMain env fetch smtpOk = ⟨2, 0, false⟩ := by
        unfold runMain; simp only [e1, e2, ep, e3, e4, e5, e6]
      rw [hrm]
      exact ⟨rfl, rfl, by norm_num, fun _ => rfl⟩
    | ok v6 =>
    exfalso
    simp only [REQUIRED_ENV, List.mem_cons, List.not_mem_nil, or_false] at hk
    rcases hk with rfl | rfl | rfl | rfl | rfl | rfl
    · rw [e1] at hke; simp at hke
    · rw [e2] at hke; simp at hke
    · rw [e3] at hke; simp at hke
    · rw [e4] at hke; simp at hke
    · rw [e5] at hke; simp at hke
    · rw [e6] at hke; simp at hke
  · intro hall hport hdown
    rcases isOk_exists (hall "OXR_APP_ID" (by decide)) with ⟨v1, e1⟩
    rcases isOk_exists (hall "SMTP_HOST" (by decide)) with ⟨v2, e2⟩
    rcases isOk_exists hport with ⟨p, ep⟩
    rcases isOk_exists (hall "SMTP_USER" (by decide)) with ⟨v3, e3⟩
    rcases isOk_exists (hall "SMTP_PASS" (by decide)) with ⟨v4, e4⟩
    rcases isOk_exists (hall "EMAIL_FROM" (by decide)) with ⟨v5, e5⟩
    rcases isOk_exists (hall "EMAIL_TO" (by decide)) with ⟨v6, e6⟩
    have hf : get_rates_for_day (fetch "D-1") = .error .httpError := by
      unfold get_rates_for_day
      rw [hdown]
      simp
    unfold runMain
    simp only [e1, e2, ep, e3, e4, e5, e6, hf]
    rfl
  · intro h
    unfold runMain at h ⊢
    repeat' split at h
    all_goals simp_all

/-- A fully populated environment. -/
def envFull : List (String × String) :=
  [("OXR_APP_ID", "id"), ("SMTP_HOST", "host"), ("SMTP_USER", "user"),
   ("SMTP_PASS", "secret"), ("EMAIL_FROM", "from@x"), ("EMAIL_TO", "to@x")]

/-- C8 counterexample: a fully configured run whose fetch returns a
success status but a payload lacking the `"rates"` key raises
`KeyError("rates")`, which `__main__` catches exactly like a missing
environment variable: exit code 2, the same observable failure mode as
the missing-configuration abort — so the configuration failure is not
distinct from every `RateFetchError`-class failure. -/
theorem config_exit_code_not_distinct :
    runMain envFull (fun _ => ⟨true, []⟩) true = ⟨2, 1, false⟩ ∧
      runMain [] (fun _ => ⟨true, []⟩) true = ⟨2, 0, false⟩ := ⟨rfl, rfl⟩

/-- A complete table, as a success payload's `rates` mapping. -/
def fullTable : Table := [("KES", 129), ("UGX", 3700), ("NGN", 1550), ("TZS", 2600)]

/-- Witness for C8 amended: an empty environment aborts at startup with
exit code 2 and zero fetches (its defaulted `SMTP_PORT` `"587"`
converts); a full environment with an unreachable data source exits
with code 1 after one fetch; and the same full environment with a
working data source but a failing SMTP session exits with code 1
without sending. -/
theorem config_missing_aborts_witness :
    runMain [] (fun _ => ⟨false, []⟩) true = ⟨2, 0, false⟩ ∧
      runMain envFull (fun _ => ⟨false, []⟩) true = ⟨1, 1, false⟩ ∧
      runMain envFull (fun _ => ⟨true, [("rates", fullTable)]⟩) false = ⟨1, 5, false⟩ :=
  ⟨((config_missing_aborts [] (fun _ => ⟨false, []⟩) true).1
      ⟨"OXR_APP_ID", by decide, rfl⟩).2.2.2 rfl,
    (config_missing_aborts envFull (fun _ => ⟨false, []⟩) true).2.1
      (by
        intro k hk
        simp only [REQUIRED_ENV, List.mem_cons, List.not_mem_nil, or_false] at hk
        rcases hk with rfl | rfl | rfl | rfl | rfl | rfl <;> rfl)
      rfl rfl,
    (config_missing_aborts envFull (fun _ => ⟨true, [("rates", fullTable)]⟩) false).2.2 rfl⟩

end FxEmail
